import Mathlib

/-!
Shallow embedding of the Nebula marketplace package-lifecycle subsystem:
the server catalog store and its HTTP handlers (`server/server.ts`) and the
client package view (`src/pages/[lang]/catalog/package/[...packageName].astro`).

JavaScript values that can be `undefined`/`null` are modelled as `Option`;
JS truthiness on strings (`undefined`, `null` and `""` are falsy) is made
explicit.  Stateful handlers take and return explicit state (the catalog
store as an ordered list of rows, the asset-directory filesystem as lists
of directories and files).
-/

namespace Nebula

/-! ### JS primitives used by the handlers -/

/-- Truthiness of an optional JS string: `undefined`/`null` and `""` are falsy. -/
def jsTruthy : Option String → Bool
  | none => false
  | some s => !s.isEmpty

/-- Numeric value of a longest leading run of decimal digits; `none` when the
run is empty (`parseInt` yields `NaN` there). -/
def leadDigits (cs : List Char) : Option Nat :=
  let ds := cs.takeWhile (fun c => c.isDigit)
  if ds.isEmpty then none
  else some (ds.foldl (fun acc c => acc * 10 + (c.toNat - 48)) 0)

/-- `parseInt(s, 10)`: skip leading whitespace, read an optional sign and the
longest digit prefix; `none` models `NaN` (no digit found). -/
def jsParseInt (s : String) : Option Int :=
  let cs := s.toList.dropWhile (fun c => c = ' ' ∨ c = '\t' ∨ c = '\n' ∨ c = '\r')
  match cs with
  | '-' :: rest => (leadDigits rest).map (fun n => -(n : Int))
  | '+' :: rest => (leadDigits rest).map (fun n => (n : Int))
  | _ => (leadDigits cs).map (fun n => (n : Int))

/-- `parseInt(page, 10) || 1`: `NaN` (`none`) and `0` are falsy and give the
default `1`. -/
def jsOrDefault (v : Option Int) (d : Int) : Int :=
  match v with
  | none => d
  | some k => if k = 0 then d else k

/-! ### Data model: the `Catalog` row (interface `Catalog` in `server.ts`).
`background_image` and `background_video` are nullable columns; `tags` is an
opaque JSON value carried through unchanged. -/

structure Catalog where
  package_name : String
  title : String
  description : String
  author : String
  image : String
  tags : Option String
  version : String
  background_image : Option String
  background_video : Option String
  payload : String
  type_ : String
deriving DecidableEq, Repr

/-- The public field set sent by the read endpoints (everything but the key). -/
structure PublicFields where
  title : String
  description : String
  author : String
  image : String
  tags : Option String
  version : String
  background_image : Option String
  background_video : Option String
  payload : String
  type_ : String
deriving DecidableEq, Repr

/-- The per-asset object built inside the `reduce` of the catalog-assets
handler and by the single-package handler. -/
def publicOf (a : Catalog) : PublicFields :=
  { title := a.title
    description := a.description
    author := a.author
    image := a.image
    tags := a.tags
    version := a.version
    background_image := a.background_image
    background_video := a.background_video
    payload := a.payload
    type_ := a.type_ }

/-! ### GET /api/catalog-assets/ -/

/-- `Math.ceil(totalItems / 20)` on a natural count. -/
def pagesOf (total : Nat) : Nat := (total + 19) / 20

/-- `findAll({ offset, limit: 20 })` over the ordered row list.  SQLite treats
a negative `OFFSET` as zero, hence `Int.toNat`. -/
def findAllPage (records : List Catalog) (offset : Int) : List Catalog :=
  (records.drop offset.toNat).take 20

/-- The assets object of one page, keyed by `package_name` (the handler's
`reduce`), in row order. -/
def assetsOf (records : List Catalog) (pageNum : Int) : List (String × PublicFields) :=
  (findAllPage records ((pageNum - 1) * 20)).map (fun a => (a.package_name, publicOf a))

/-- A reply sent by the catalog-assets handler: the 400
`{error: "Page must be a positive number!"}` body, or the normal
`{assets, pages}` payload. -/
inductive CatalogReply where
  | pageError
  | payload (assets : List (String × PublicFields)) (pages : Nat)
deriving DecidableEq, Repr

/-- The catalog-assets handler, as the sequence of replies it emits: when
`pageNum < 1` it sends the 400 error but does not return, so the normal
payload is computed and sent as well. -/
def catalogAssetsHandler (page : Option String) (records : List Catalog) :
    List CatalogReply :=
  let pageNum : Int := jsOrDefault (page.bind jsParseInt) 1
  (if pageNum < 1 then [CatalogReply.pageError] else []) ++
    [CatalogReply.payload (assetsOf records pageNum) (pagesOf records.length)]

/-- The §4.1 `listPage` view of one page: the items the handler returns for a
given parsed page number, together with the page count. -/
def listPage (pageNum : Int) (records : List Catalog) :
    List (String × PublicFields) × Nat :=
  (assetsOf records pageNum, pagesOf records.length)

/-! ### The mutation gateway: configuration, `verifyReq`, and the two write
handlers.  The asset-directory side is a filesystem state: the set of
package directories under `database_assets` and the files they hold. -/

/-- A multipart upload part as the handler sees it: the original filename and
the byte stream. -/
structure UploadFile where
  filename : String
  content : List Nat
deriving DecidableEq, Repr

/-- The marketplace section of `parsedDoc`: the feature flag and the shared
secret. -/
structure Config where
  enabled : Bool
  psk : String
deriving DecidableEq, Repr

/-- `VerifyStatus` of `server.ts`: an HTTP status and an optional error
message (`error.message`). -/
structure VerifyStatus where
  status : Nat
  error : Option String
deriving DecidableEq, Repr

/-- `verifyReq(request, upload, data)`: feature flag, then psk header, then —
for uploads only — the `packagename` header and the file.  `psk` and
`packagename` are the raw headers (`none` when absent); a header compares to
the secret with `!==`, so an absent header mismatches. -/
def verifyReq (cfg : Config) (psk : Option String) (upload : Bool)
    (packagename : Option String) (data : Option UploadFile) : VerifyStatus :=
  if cfg.enabled = false then
    { status := 500, error := some "Marketplace Is disabled!" }
  else if psk ≠ some cfg.psk then
    { status := 403, error := some "PSK isn't correct!" }
  else if upload && !jsTruthy packagename then
    { status := 500, error := some "No packagename defined!" }
  else if upload && data.isNone then
    { status := 400, error := some "No file uploaded!" }
  else
    { status := 200, error := none }

/-- The `{status: <message>}` reply of the write endpoints. -/
structure StatusReply where
  status : Nat
  msg : String
deriving DecidableEq, Repr

/-- The `database_assets` tree: the package directories present, and the
files as (directory, filename, byte content). -/
structure FileSystem where
  dirs : List String
  files : List (String × String × List Nat)
deriving DecidableEq, Repr

/-- Read back a file's bytes (the round-trip side of an upload). -/
def readFile (fs : FileSystem) (dir filename : String) : Option (List Nat) :=
  (fs.files.find? (fun e => e.1 == dir && e.2.1 == filename)).map (fun e => e.2.2)

/-- `pipeline(data.file, createWriteStream(.../<dir>/<filename>))`: a
truncating write that overwrites an existing file; it fails (`ENOENT`) when
the package directory does not exist. -/
def pipelineWrite (fs : FileSystem) (dir filename : String) (content : List Nat) :
    Option FileSystem :=
  if fs.dirs.contains dir then
    some { fs with
            files := fs.files.filter (fun e => !(e.1 == dir && e.2.1 == filename))
                      ++ [(dir, filename, content)] }
  else none

/-- POST /api/upload-asset: verify, then stream the file into
`database_assets/<packagename>/<original filename>`; an `ENOENT` from the
missing directory is caught and reported as the generic upload failure. -/
def uploadAsset (cfg : Config) (psk packagename : Option String)
    (data : Option UploadFile) (fs : FileSystem) : StatusReply × FileSystem :=
  let verify := verifyReq cfg psk true packagename data
  match verify.error with
  | some m => ({ status := verify.status, msg := m }, fs)
  | none =>
    -- `verify.error = none` with `upload = true` guarantees both are present.
    let f := data.getD { filename := "", content := [] }
    let pkg := packagename.getD ""
    match pipelineWrite fs pkg f.filename f.content with
    | none =>
      ({ status := 500,
         msg := "File couldn't be uploaded! (Package most likely doesn't exist)" }, fs)
    | some fs2 => ({ status := verify.status, msg := "File uploaded successfully!" }, fs2)

/-- The store plus the asset directories: the state the create handler reads
and writes. -/
structure ServerState where
  store : List Catalog
  fs : FileSystem
deriving DecidableEq, Repr

/-- `catalogAssets.create(...)`: the model's `package_name` column is
`unique`, so inserting a duplicate key rejects with a uniqueness error
instead of adding a row. -/
def storeCreate (store : List Catalog) (r : Catalog) : Except String (List Catalog) :=
  if store.any (fun q => q.package_name == r.package_name) then
    Except.error "SequelizeUniqueConstraintError"
  else Except.ok (store ++ [r])

/-- POST /api/create-package: verify, insert the row, then check the asset
directory.  The insert is not wrapped in try/catch, so a store rejection
(duplicate `package_name`) surfaces as the framework's generic 500 reply.
If the directory already exists the handler replies
`Package already exists!` with the row already inserted; otherwise it
creates the directory and reports success. -/
def createPackage (cfg : Config) (psk : Option String) (body : Catalog)
    (st : ServerState) : StatusReply × ServerState :=
  let verify := verifyReq cfg psk false none none
  match verify.error with
  | some m => ({ status := verify.status, msg := m }, st)
  | none =>
    match storeCreate st.store body with
    | Except.error _ => ({ status := 500, msg := "Internal Server Error" }, st)
    | Except.ok store2 =>
      if st.fs.dirs.contains body.package_name then
        ({ status := 500, msg := "Package already exists!" },
         { st with store := store2 })
      else
        ({ status := verify.status, msg := "Package created successfully!" },
         { store := store2,
           fs := { st.fs with dirs := st.fs.dirs ++ [body.package_name] } })

/-! ### GET /api/packages/:package and the client package view.

The view receives the handler's `details` JSON and reads properties off it
dynamically (`assetsJson.<key>`), so the fetched record is embedded as a
key/value object: a missing key reads as `undefined`, a nullable column as
`null`, both falsy. -/

/-- A JSON object with string-or-null values, as the view sees it. -/
def JsObject : Type := List (String × Option String)

/-- Property access `obj.key`: `none` when the key is absent (`undefined`),
`some none` when it is `null`. -/
def jsGet (obj : JsObject) (key : String) : Option (Option String) :=
  (List.find? (fun e => e.1 == key) obj).map (fun e => e.2)

/-- Truthiness of a property read: `undefined`, `null` and `""` are falsy. -/
def jsTruthyProp : Option (Option String) → Bool
  | none => false
  | some none => false
  | some (some s) => !s.isEmpty

/-- The `details` object the single-package handler sends (its exact keys). -/
def detailsOf (r : Catalog) : JsObject :=
  [("title", some r.title),
   ("description", some r.description),
   ("image", some r.image),
   ("author", some r.author),
   ("tags", r.tags),
   ("version", some r.version),
   ("background_image", r.background_image),
   ("background_video", r.background_video),
   ("payload", some r.payload),
   ("type", some r.type_)]

/-- The three media elements the package view can emit. -/
inductive MediaBranch where
  | video
  | backgroundImageBlock
  | plainImage
deriving DecidableEq, Repr

/-- The media elements rendered by the view's template, in template order:
`assetsJson.background_video && <video .../>`,
`assetsJson.backgroundImage && <div .../>`, and
`!assetsJson.background_video && !assetsJson.backgroundImage && <img .../>`.
Note the second and third conditions read the key `backgroundImage`. -/
def renderedMedia (assetsJson : JsObject) : List MediaBranch :=
  (if jsTruthyProp (jsGet assetsJson "background_video") then [MediaBranch.video]
   else []) ++
  (if jsTruthyProp (jsGet assetsJson "backgroundImage")
   then [MediaBranch.backgroundImageBlock] else []) ++
  (if !jsTruthyProp (jsGet assetsJson "background_video")
      && !jsTruthyProp (jsGet assetsJson "backgroundImage")
   then [MediaBranch.plainImage] else [])

/-! ### Client install state (the view's `fn` run on page load). -/

/-- A persisted plugin descriptor `{name, type, remove?}`. -/
structure PluginDescriptor where
  name : String
  ptype : String
  remove : Option Bool
deriving DecidableEq, Repr

/-- The two persisted collections as read from local storage; `none` is an
absent key (`JSON.parse(null) || []` yields the empty collection). -/
structure PersistedStorage where
  themes : Option (List String)
  plugins : Option (List PluginDescriptor)
deriving DecidableEq, Repr

/-- `cssItems`: the persisted theme identifiers, defaulting to `[]`. -/
def cssItems (st : PersistedStorage) : List String := st.themes.getD []

/-- `pluginItems`: the persisted plugin descriptors, defaulting to `[]`. -/
def pluginItems (st : PersistedStorage) : List PluginDescriptor := st.plugins.getD []

/-- `cssItems.indexOf(packageName) !== -1`. -/
def cssItemExists (st : PersistedStorage) (packageName : String) : Bool :=
  (cssItems st).contains packageName

/-- `pluginItems.find(({name, remove}) => name === packageName && remove !== true)`:
the found descriptor, or `none`. -/
def pluginItemExists (st : PersistedStorage) (packageName : String) :
    Option PluginDescriptor :=
  (pluginItems st).find? (fun p => p.name == packageName && !(p.remove == some true))

/-- The two-state install machine of §4.5. -/
inductive InstallState where
  | Installed
  | NotInstalled
deriving DecidableEq, Repr

/-- The state the page-load handler computes from persisted storage. -/
def installStateOnLoad (st : PersistedStorage) (packageName : String) : InstallState :=
  if cssItemExists st packageName || (pluginItemExists st packageName).isSome then
    InstallState.Installed
  else InstallState.NotInstalled

/-- Visibility of the two buttons via their `hidden` classes. -/
structure Buttons where
  installHidden : Bool
  uninstallHidden : Bool
deriving DecidableEq, Repr

/-- The markup's initial state: install visible, uninstall `hidden`. -/
def initialButtons : Buttons := { installHidden := false, uninstallHidden := true }

/-- Button visibility after the page-load handler runs: when the package is
found installed it unhides uninstall and hides install, else the markup's
initial state stands. -/
def buttonsOnLoad (st : PersistedStorage) (packageName : String) : Buttons :=
  if cssItemExists st packageName || (pluginItemExists st packageName).isSome then
    { installHidden := true, uninstallHidden := false }
  else initialButtons

/-! ### Concrete fixtures for the closed-form theorems. -/

/-- A sample catalog record. -/
def sampleRecord : Catalog :=
  { package_name := "pkg-1"
    title := "Aurora"
    description := "A theme"
    author := "ari"
    image := "cover.png"
    tags := none
    version := "1.0"
    background_image := none
    background_video := none
    payload := "aurora.css"
    type_ := "theme" }

/-- A configuration with the marketplace enabled and secret `"s"`. -/
def cfgOn : Config := { enabled := true, psk := "s" }

/-- A configuration with the marketplace disabled. -/
def cfgOff : Config := { enabled := false, psk := "s" }

/-- The empty asset tree. -/
def fsEmpty : FileSystem := { dirs := [], files := [] }

/-- The empty server state. -/
def stEmpty : ServerState := { store := [], fs := fsEmpty }

/-- A sample upload part. -/
def sampleFile : UploadFile := { filename := "aurora.css", content := [1, 2, 3] }

end Nebula

namespace Nebula

/-- **C8** — On both write endpoints, a disabled marketplace flag yields the
generic 500 failure `Marketplace Is disabled!`, and an enabled flag with a
mismatched `psk` header yields the distinct 403 `PSK isn't correct!`; in
both cases the request is rejected with a `{status: <message>}` body and
the server state is untouched. -/
theorem write_endpoints_auth_gating (cfg : Config) (psk : Option String)
    (packagename : Option String) (data : Option UploadFile)
    (body : Catalog) (fs : FileSystem) (st : ServerState) :
    (cfg.enabled = false →
      uploadAsset cfg psk packagename data fs =
        ({ status := 500, msg := "Marketplace Is disabled!" }, fs) ∧
      createPackage cfg psk body st =
        ({ status := 500, msg := "Marketplace Is disabled!" }, st)) ∧
    (cfg.enabled = true → psk ≠ some cfg.psk →
      uploadAsset cfg psk packagename data fs =
        ({ status := 403, msg := "PSK isn't correct!" }, fs) ∧
      createPackage cfg psk body st =
        ({ status := 403, msg := "PSK isn't correct!" }, st)) := by
  constructor
  · intro h
    constructor <;> simp [uploadAsset, createPackage, verifyReq, h]
  · intro h1 h2
    constructor <;> simp [uploadAsset, createPackage, verifyReq, h1, h2]

/-- Witness for C8 at concrete inputs: the disabled flag and the wrong psk
each produce their reply. -/
theorem write_endpoints_auth_gating_witness :
    uploadAsset cfgOff (some "s") (some "pkg-1") (some sampleFile) fsEmpty =
      ({ status := 500, msg := "Marketplace Is disabled!" }, fsEmpty) ∧
    createPackage cfgOn (some "wrong") sampleRecord stEmpty =
      ({ status := 403, msg := "PSK isn't correct!" }, stEmpty) :=
  ⟨((write_endpoints_auth_gating cfgOff (some "s") (some "pkg-1") (some sampleFile)
      sampleRecord fsEmpty stEmpty).1 rfl).1,
   ((write_endpoints_auth_gating cfgOn (some "wrong") (some "pkg-1") (some sampleFile)
      sampleRecord fsEmpty stEmpty).2 rfl (by decide)).2⟩

/-- **C5 counterexample** — An authorized upload with no `packagename` header
is rejected with status 500 (the specific message `No packagename defined!`),
which is not a 4xx status, contradicting the claim's BadRequest
classification. -/
theorem upload_missing_header_not_4xx :
    (uploadAsset cfgOn (some "s") none (some sampleFile) fsEmpty).1 =
      { status := 500, msg := "No packagename defined!" } ∧
    ¬((uploadAsset cfgOn (some "s") none (some sampleFile) fsEmpty).1.status < 500 ∧
      400 ≤ (uploadAsset cfgOn (some "s") none (some sampleFile) fsEmpty).1.status) := by
  constructor
  · rfl
  · intro h
    have : (uploadAsset cfgOn (some "s") none (some sampleFile) fsEmpty).1.status = 500 := rfl
    omega

/-- **C5 (amended)** — An authorized upload with no `packagename` header is
rejected before any filesystem write, with status 500 and the specific
message `No packagename defined!` (not a 4xx); the missing-file case is the
one rejected 400 with `No file uploaded!`. -/
theorem upload_missing_header_rejected (cfg : Config) (psk : Option String)
    (data : Option UploadFile) (fs : FileSystem)
    (h1 : cfg.enabled = true) (h2 : psk = some cfg.psk) :
    uploadAsset cfg psk none data fs =
      ({ status := 500, msg := "No packagename defined!" }, fs) ∧
    ∀ pkg : String, pkg ≠ "" →
      uploadAsset cfg psk (some pkg) none fs =
        ({ status := 400, msg := "No file uploaded!" }, fs) := by
  constructor
  · simp [uploadAsset, verifyReq, jsTruthy, h1, h2]
  · intro pkg hpkg
    have he : pkg.isEmpty = false := by
      cases h : pkg.isEmpty
      · rfl
      · exact absurd ((String.isEmpty_iff pkg).mp h) hpkg
    simp [uploadAsset, verifyReq, jsTruthy, h1, h2, he]

/-- Witness for the amended C5 at concrete inputs. -/
theorem upload_missing_header_rejected_witness :
    uploadAsset cfgOn (some "s") none (some sampleFile) fsEmpty =
      ({ status := 500, msg := "No packagename defined!" }, fsEmpty) ∧
    uploadAsset cfgOn (some "s") (some "pkg-1") none fsEmpty =
      ({ status := 400, msg := "No file uploaded!" }, fsEmpty) :=
  ⟨(upload_missing_header_rejected cfgOn (some "s") (some sampleFile) fsEmpty
      rfl rfl).1,
   (upload_missing_header_rejected cfgOn (some "s") (some sampleFile) fsEmpty
      rfl rfl).2 "pkg-1" (by decide)⟩

/-- **C2** — When the parsed page value is below 1 the catalog-assets handler
sends the 400 `Page must be a positive number!` error and still also computes
and sends the normal `{assets, pages}` payload; an absent or unparsable
`page` query defaults to page 1 with no error. -/
theorem catalog_assets_negative_page (s : String) (records : List Catalog)
    (k : Int) (hk : jsParseInt s = some k) (hneg : k < 0) :
    catalogAssetsHandler (some s) records =
      [CatalogReply.pageError,
       CatalogReply.payload (assetsOf records k) (pagesOf records.length)] ∧
    catalogAssetsHandler none records =
      [CatalogReply.payload (assetsOf records 1) (pagesOf records.length)] ∧
    ∀ t : String, jsParseInt t = none →
      catalogAssetsHandler (some t) records =
        [CatalogReply.payload (assetsOf records 1) (pagesOf records.length)] := by
  refine ⟨?_, ?_, ?_⟩
  · have hne : k ≠ 0 := hneg.ne
    have hlt : k < 1 := by omega
    simp [catalogAssetsHandler, jsOrDefault, hk, hne, hlt]
  · simp [catalogAssetsHandler, jsOrDefault]
  · intro t ht
    simp [catalogAssetsHandler, jsOrDefault, ht]

/-- Witness for C2 at the concrete query `page=-2` on a one-record store. -/
theorem catalog_assets_negative_page_witness :
    catalogAssetsHandler (some "-2") [sampleRecord] =
      [CatalogReply.pageError,
       CatalogReply.payload (assetsOf [sampleRecord] (-2)) (pagesOf 1)] :=
  (catalog_assets_negative_page "-2" [sampleRecord] (-2) (by decide) (by decide)).1

/-- **C10** — The query `page=0` is not rejected: `0` parses but is falsy, so
the default page 1 is used and only the normal payload is sent; in general
the 400 page error is emitted exactly when the query parses to a negative
integer. -/
theorem catalog_assets_page_zero (records : List Catalog) :
    catalogAssetsHandler (some "0") records =
      [CatalogReply.payload (assetsOf records 1) (pagesOf records.length)] ∧
    ∀ s : String,
      (CatalogReply.pageError ∈ catalogAssetsHandler (some s) records ↔
        ∃ k : Int, jsParseInt s = some k ∧ k < 0) := by
  constructor
  · have h0 : jsParseInt "0" = some 0 := by decide
    simp [catalogAssetsHandler, jsOrDefault, h0]
  · intro s
    rcases h : jsParseInt s with _ | k
    · simp [catalogAssetsHandler, jsOrDefault, h]
    · by_cases hk : k = 0
      · subst hk
        simp [catalogAssetsHandler, jsOrDefault, h]
      · by_cases hneg : k < 0
        · have hlt : k < 1 := by omega
          simp [catalogAssetsHandler, jsOrDefault, h, hk, hlt, hneg]
        · have hlt : ¬k < 1 := by omega
          simp [catalogAssetsHandler, jsOrDefault, h, hk, hlt, hneg]

/-- **C6** — For every `page ≥ 1` over a fixed record set, `listPage` reports
`ceil(totalRecords / 20)` pages (the least `m` with `totalRecords ≤ 20 * m`),
returns at most 20 items, and its items are the slice of the row order
starting at offset `(page - 1) * 20`. -/
theorem listPage_pagination (page : Nat) (records : List Catalog)
    (h : 1 ≤ page) :
    (listPage page records).2 = records.length ⌈/⌉ 20 ∧
    records.length ≤ 20 * (listPage page records).2 ∧
    (∀ m : Nat, records.length ≤ 20 * m → (listPage page records).2 ≤ m) ∧
    (listPage page records).1.length ≤ 20 ∧
    (listPage page records).1 =
      ((records.drop ((page - 1) * 20)).take 20).map
        (fun a => (a.package_name, publicOf a)) := by
  have hoff : (((page : Int) - 1) * 20).toNat = (page - 1) * 20 := by omega
  refine ⟨?_, ?_, ?_, ?_, ?_⟩
  · show pagesOf records.length = _
    rfl
  · show records.length ≤ 20 * pagesOf records.length
    unfold pagesOf
    omega
  · intro m hm
    show pagesOf records.length ≤ m
    unfold pagesOf
    omega
  · show (assetsOf records page).length ≤ 20
    simp [assetsOf, findAllPage]
  · show assetsOf records page = _
    unfold assetsOf findAllPage
    rw [hoff]

/-- Witness for C6 at page 2 over a two-record store. -/
theorem listPage_pagination_witness :
    (listPage ((2 : Nat) : Int) [sampleRecord, sampleRecord]).2 = 1 ∧
    (listPage ((2 : Nat) : Int) [sampleRecord, sampleRecord]).1 = [] := by
  have h := listPage_pagination 2 [sampleRecord, sampleRecord] (by decide)
  exact ⟨by rw [h.1]; rfl, by rw [h.2.2.2.2]; rfl⟩

/-- A record whose only optional medium is `background_image`. -/
def bgImageOnlyRecord : Catalog :=
  { sampleRecord with background_image := some "bg.png" }

/-- **C1 (at the failing input)** — A fetched record with `background_image`
set and no `background_video` renders the plain-image branch, not the
background-image block: the view's template tests the key `backgroundImage`,
which the fetched `details` object never carries, so that branch cannot
fire. -/
theorem media_branch_background_image_ignored :
    bgImageOnlyRecord.background_image = some "bg.png" ∧
    bgImageOnlyRecord.background_video = none ∧
    jsGet (detailsOf bgImageOnlyRecord) "backgroundImage" = none ∧
    renderedMedia (detailsOf bgImageOnlyRecord) = [MediaBranch.plainImage] ∧
    renderedMedia (detailsOf bgImageOnlyRecord) ≠
      [MediaBranch.backgroundImageBlock] := by
  decide

/-- **C9** — On page load the install state is recomputed from persisted
storage alone: it is `Installed` exactly when the package identifier is in
the persisted theme collection, or some persisted plugin descriptor carries
that name with its `remove` flag not `true`; the install button is shown
(and uninstall hidden) exactly in the `NotInstalled` state, and vice versa. -/
theorem install_state_on_load (st : PersistedStorage) (packageName : String) :
    (installStateOnLoad st packageName = InstallState.Installed ↔
      packageName ∈ cssItems st ∨
        ∃ p ∈ pluginItems st, p.name = packageName ∧ p.remove ≠ some true) ∧
    (installStateOnLoad st packageName = InstallState.NotInstalled ↔
      ¬(packageName ∈ cssItems st ∨
        ∃ p ∈ pluginItems st, p.name = packageName ∧ p.remove ≠ some true)) ∧
    buttonsOnLoad st packageName =
      (if installStateOnLoad st packageName = InstallState.Installed then
        { installHidden := true, uninstallHidden := false }
      else initialButtons) := by
  have hcond : (cssItemExists st packageName ||
      (pluginItemExists st packageName).isSome) = true ↔
      (packageName ∈ cssItems st ∨
        ∃ p ∈ pluginItems st, p.name = packageName ∧ p.remove ≠ some true) := by
    simp [cssItemExists, pluginItemExists, List.find?_isSome, Bool.or_eq_true,
      List.elem_iff, and_assoc]
  refine ⟨?_, ?_, ?_⟩
  · rw [← hcond]
    unfold installStateOnLoad
    split
    · simp [*]
    · simp [*]
  · rw [← hcond]
    unfold installStateOnLoad
    split
    · simp [*]
    · simp [*]
  · unfold buttonsOnLoad installStateOnLoad
    split
    · simp
    · simp

/-- **C4** — When create-package passes authorization, the row insert
succeeds, and the asset directory already exists, the reply is the 500
`Package already exists!` failure while the freshly inserted row stays in
the store: the insert and the directory check are not atomic. -/
theorem create_package_conflict_keeps_row (cfg : Config) (psk : Option String)
    (body : Catalog) (st : ServerState)
    (h1 : cfg.enabled = true) (h2 : psk = some cfg.psk)
    (h3 : st.store.all (fun q => ¬q.package_name == body.package_name))
    (h4 : st.fs.dirs.contains body.package_name = true) :
    createPackage cfg psk body st =
      ({ status := 500, msg := "Package already exists!" },
       { st with store := st.store ++ [body] }) ∧
    body ∈ (createPackage cfg psk body st).2.store := by
  have hnodup : st.store.any (fun q => q.package_name == body.package_name) = false := by
    rw [List.any_eq_false]
    intro q hq
    have := List.all_eq_true.mp h3 q hq
    simpa using this
  have hmain : createPackage cfg psk body st =
      ({ status := 500, msg := "Package already exists!" },
       { st with store := st.store ++ [body] }) := by
    have h4m : body.package_name ∈ st.fs.dirs := List.elem_iff.mp h4
    simp [createPackage, verifyReq, storeCreate, h1, h2, hnodup, h4, h4m]
  exact ⟨hmain, by rw [hmain]; simp⟩

/-- Witness for C4: a store without `pkg-1` but with a stray `pkg-1`
directory; the create replies with the conflict yet inserts the row. -/
theorem create_package_conflict_keeps_row_witness :
    createPackage cfgOn (some "s") sampleRecord
        { store := [], fs := { dirs := ["pkg-1"], files := [] } } =
      ({ status := 500, msg := "Package already exists!" },
       { store := [sampleRecord], fs := { dirs := ["pkg-1"], files := [] } }) := by
  have h := create_package_conflict_keeps_row cfgOn (some "s") sampleRecord
    { store := [], fs := { dirs := ["pkg-1"], files := [] } }
    rfl rfl (by decide) (by decide)
  exact h.1

/-- An authorized create whose row key is already in the store rejects at the
insert (the uniqueness constraint) and surfaces as the framework's generic
500, leaving the whole state untouched. -/
theorem createPackage_of_dup (cfg : Config) (psk : Option String)
    (body : Catalog) (st : ServerState)
    (h1 : cfg.enabled = true) (h2 : psk = some cfg.psk)
    (h : st.store.any (fun q => q.package_name == body.package_name) = true) :
    createPackage cfg psk body st =
      ({ status := 500, msg := "Internal Server Error" }, st) := by
  simp [createPackage, verifyReq, storeCreate, h1, h2, h]

/-- After any authorized create, the store of the resulting state holds a row
with the request's key (it held one before, or the insert just added it). -/
theorem createPackage_key_in_store (cfg : Config) (psk : Option String)
    (body : Catalog) (st : ServerState)
    (h1 : cfg.enabled = true) (h2 : psk = some cfg.psk) :
    (createPackage cfg psk body st).2.store.any
      (fun q => q.package_name == body.package_name) = true := by
  by_cases h : st.store.any (fun q => q.package_name == body.package_name) = true
  · rw [createPackage_of_dup cfg psk body st h1 h2 h]
    exact h
  · have hf : st.store.any (fun q => q.package_name == body.package_name) = false :=
      Bool.eq_false_iff.mpr h
    have hstore : (createPackage cfg psk body st).2.store = st.store ++ [body] := by
      by_cases hd : body.package_name ∈ st.fs.dirs
      · simp [createPackage, verifyReq, storeCreate, h1, h2, hf, hd]
      · simp [createPackage, verifyReq, storeCreate, h1, h2, hf, hd]
    rw [hstore, List.any_append]
    simp

/-- **C3 (amended)** — An immediate second create-package with the same
identifier fails, but with the framework's generic 500 internal error (the
store's uniqueness constraint rejects the insert before the directory check
is reached), not the gateway's `Package already exists!` conflict reply; the
second call leaves the state of the first call — its directory included —
unchanged. -/
theorem create_package_twice_second_fails (cfg : Config) (psk : Option String)
    (body : Catalog) (st : ServerState)
    (h1 : cfg.enabled = true) (h2 : psk = some cfg.psk) :
    createPackage cfg psk body (createPackage cfg psk body st).2 =
      ({ status := 500, msg := "Internal Server Error" },
       (createPackage cfg psk body st).2) :=
  createPackage_of_dup cfg psk body (createPackage cfg psk body st).2 h1 h2
    (createPackage_key_in_store cfg psk body st h1 h2)

/-- Witness for the amended C3: the concrete double create on the empty
state; the second reply is the generic 500 and the state still holds exactly
the first call's row and directory. -/
theorem create_package_twice_second_fails_witness :
    createPackage cfgOn (some "s") sampleRecord
        (createPackage cfgOn (some "s") sampleRecord stEmpty).2 =
      ({ status := 500, msg := "Internal Server Error" },
       { store := [sampleRecord],
         fs := { dirs := ["pkg-1"], files := [] } }) := by
  have h := create_package_twice_second_fails cfgOn (some "s") sampleRecord
    stEmpty rfl rfl
  rw [h]
  decide

/-- **C3 counterexample** — At the concrete double create, the second call's
reply is the generic internal failure, not the `Package already exists!`
conflict report the claim requires. -/
theorem create_package_twice_no_conflict_report :
    (createPackage cfgOn (some "s") sampleRecord
        (createPackage cfgOn (some "s") sampleRecord stEmpty).2).1 =
      { status := 500, msg := "Internal Server Error" } ∧
    (createPackage cfgOn (some "s") sampleRecord
        (createPackage cfgOn (some "s") sampleRecord stEmpty).2).1 ≠
      { status := 500, msg := "Package already exists!" } := by
  decide

/-- **C7** — An authorized upload to a package with no asset directory always
fails with the generic upload-failure reply and leaves the filesystem
untouched; an authorized upload to an existing package directory succeeds
and leaves a readable file under the original filename whose bytes equal the
uploaded stream. -/
theorem upload_asset_roundtrip (cfg : Config) (psk : Option String)
    (pkg : String) (f : UploadFile) (fs : FileSystem)
    (h1 : cfg.enabled = true) (h2 : psk = some cfg.psk) (h3 : pkg ≠ "") :
    (fs.dirs.contains pkg = false →
      uploadAsset cfg psk (some pkg) (some f) fs =
        ({ status := 500,
           msg := "File couldn't be uploaded! (Package most likely doesn't exist)" },
         fs)) ∧
    (fs.dirs.contains pkg = true →
      (uploadAsset cfg psk (some pkg) (some f) fs).1 =
        { status := 200, msg := "File uploaded successfully!" } ∧
      readFile (uploadAsset cfg psk (some pkg) (some f) fs).2 pkg f.filename =
        some f.content) := by
  have he : pkg.isEmpty = false := by
    cases h : pkg.isEmpty
    · rfl
    · exact absurd ((String.isEmpty_iff pkg).mp h) h3
  constructor
  · intro hd
    have hdm : ¬pkg ∈ fs.dirs := by
      intro hm
      exact Bool.noConfusion ((List.elem_iff.mpr hm).symm.trans hd)
    simp [uploadAsset, verifyReq, jsTruthy, pipelineWrite, h1, h2, he, hdm]
  · intro hd
    have hdm : pkg ∈ fs.dirs := List.elem_iff.mp hd
    constructor
    · simp [uploadAsset, verifyReq, jsTruthy, pipelineWrite, h1, h2, he, hdm]
    · have hwrite : (uploadAsset cfg psk (some pkg) (some f) fs).2 =
        { fs with files :=
            fs.files.filter (fun e => !(e.1 == pkg && e.2.1 == f.filename))
              ++ [(pkg, f.filename, f.content)] } := by
        simp [uploadAsset, verifyReq, jsTruthy, pipelineWrite, h1, h2, he, hdm]
      rw [hwrite]
      unfold readFile
      rw [List.find?_append]
      have hnone : (fs.files.filter
          (fun e => !(e.1 == pkg && e.2.1 == f.filename))).find?
            (fun e => e.1 == pkg && e.2.1 == f.filename) = none := by
        rw [List.find?_eq_none]
        intro x hx
        have hx2 := (List.mem_filter.mp hx).2
        simp only [Bool.not_eq_true', Bool.and_eq_false_iff, beq_eq_false_iff_ne,
          ne_eq] at hx2
        simp only [Bool.and_eq_true, beq_iff_eq, not_and]
        tauto
      rw [hnone]
      simp

/-- Witness for C7: the missing-directory failure on the empty tree, and the
successful round-trip once the directory exists. -/
theorem upload_asset_roundtrip_witness :
    uploadAsset cfgOn (some "s") (some "pkg-1") (some sampleFile) fsEmpty =
      ({ status := 500,
         msg := "File couldn't be uploaded! (Package most likely doesn't exist)" },
       fsEmpty) ∧
    readFile
      (uploadAsset cfgOn (some "s") (some "pkg-1") (some sampleFile)
        { dirs := ["pkg-1"], files := [] }).2 "pkg-1" "aurora.css" =
      some [1, 2, 3] := by
  constructor
  · exact (upload_asset_roundtrip cfgOn (some "s") "pkg-1" sampleFile fsEmpty
      rfl rfl (by decide)).1 (by decide)
  · exact ((upload_asset_roundtrip cfgOn (some "s") "pkg-1" sampleFile
      { dirs := ["pkg-1"], files := [] } rfl rfl (by decide)).2 (by decide)).2

end Nebula
